import Mathlib

/-!
Verification of the nutflix_lite camera/motion core against its specification.

The development shallowly embeds the two components the claims are about:

* `src/nutflix_common/motion_utils.py` — the `MotionDetector` class.  The
  OpenCV stages that are pure image processing (grayscale conversion,
  Gaussian blur, MOG2 background subtraction, contour extraction) are
  abstracted: a `Frame` carries the list of areas of the external contours
  that the CV stack would extract from its foreground mask, and a
  background model records which frames were fed to it.  All bookkeeping
  (per-camera dictionaries, cooldown clock, event log, frame counters) is
  embedded faithfully, statement by statement.

* `src/camera_manager.py` together with `src/libcamera_still_bridge.py` —
  the `CameraManager` lifecycle operations (`_initialize_opencv`,
  `release`/`cleanup`, `is_camera_available`, `get_latest_frame`) over a
  stubbed capture backend.  JPEG encoding is abstracted to the pair
  (image, quality); backend open results are stub parameters.

Python dictionaries keyed by camera id are embedded as total functions
from `String`, with the dictionary defaults (`.get(k, 0)` etc.) baked in;
timestamps and contour areas are rationals (Python floats).
-/

namespace NutflixLite

/-! ## Motion detection (src/nutflix_common/motion_utils.py) -/

/-- A camera frame.  `contourAreas` abstracts the image-processing pipeline:
it is the list of areas (`cv2.contourArea`) of the external contours that
`cv2.findContours` extracts from the foreground mask which the (already
warmed-up) background subtractor produces for this frame. -/
structure Frame where
  height : ℕ
  width : ℕ
  contourAreas : List ℚ
deriving DecidableEq

/-- `MotionConfig` dataclass (motion_utils.py lines 30-42). -/
structure MotionConfig where
  threshold : ℤ
  sensitivity : ℤ
  cooldown : ℚ
  mog2_detect_shadows : Bool
  mog2_history : ℕ
  mog2_var_threshold : ℚ
  min_contour_area : ℤ
  max_contours_to_check : ℕ
deriving DecidableEq

/-- Default field values of the `MotionConfig` dataclass. -/
def defaultMotionConfig : MotionConfig :=
  { threshold := 500, sensitivity := 25, cooldown := 2, mog2_detect_shadows := true,
    mog2_history := 500, mog2_var_threshold := 16, min_contour_area := 100,
    max_contours_to_check := 50 }

/-- `MotionEvent` dataclass (motion_utils.py lines 20-27). -/
structure MotionEvent where
  camera_id : String
  timestamp : ℚ
  contour_count : ℕ
  largest_contour_area : ℚ
  frame_shape : ℕ × ℕ
deriving DecidableEq

/-- A MOG2 background subtractor: its creation parameters plus, abstractly,
the list of frames that have been fed to it via `apply` (the model state). -/
structure BGSubtractor where
  history : ℕ
  varThreshold : ℚ
  detectShadows : Bool
  applied : List Frame
deriving DecidableEq

/-- `cv2.createBackgroundSubtractorMOG2(...)` with the configured parameters. -/
def newBGSubtractor (cfg : MotionConfig) : BGSubtractor :=
  { history := cfg.mog2_history, varThreshold := cfg.mog2_var_threshold,
    detectShadows := cfg.mog2_detect_shadows, applied := [] }

/-- `bg_subtractor.apply(processed_frame)`: feeds the frame to the model and
returns the foreground mask, represented by its contour areas. -/
def BGSubtractor.apply (m : BGSubtractor) (f : Frame) : BGSubtractor × List ℚ :=
  ({ m with applied := m.applied ++ [f] }, f.contourAreas)

/-- The contour-statistics dictionary built by `_analyze_contours`.  (In the
no-contour early returns the Python dict only carries `count` and
`largest_area`; the unread extra keys are modelled as 0.) -/
structure ContourInfo where
  count : ℕ
  largest_area : ℚ
  total_area : ℚ
  average_area : ℚ
deriving DecidableEq

/-- Python `max` over a nonempty list (0 on the empty list, never used there). -/
def listMax : List ℚ → ℚ
  | [] => 0
  | a :: as => as.foldl max a

/-- `MotionDetector._analyze_contours` (motion_utils.py lines 150-194), with
the foreground mask represented by its list of contour areas. -/
def analyze_contours (cfg : MotionConfig) (areas : List ℚ) : Bool × ContourInfo :=
  if areas = [] then
    (false, { count := 0, largest_area := 0, total_area := 0, average_area := 0 })
  else
    let contours := areas.take cfg.max_contours_to_check
    let valid := contours.filter (fun a => decide ((cfg.min_contour_area : ℚ) ≤ a))
    if valid = [] then
      (false, { count := 0, largest_area := 0, total_area := 0, average_area := 0 })
    else
      let largest_area := listMax valid
      let motion_detected := decide ((cfg.threshold : ℚ) ≤ largest_area)
      (motion_detected,
        { count := valid.length, largest_area := largest_area,
          total_area := valid.sum, average_area := valid.sum / valid.length })

/-- The `MotionDetector` object state: configuration plus the four per-camera
dictionaries, embedded as total functions with the `.get` defaults baked in
(`_bg_subtractors` membership is the `Option`). -/
structure MotionDetector where
  config : MotionConfig
  bg_subtractors : String → Option BGSubtractor
  last_motion_times : String → ℚ
  motion_events : String → List MotionEvent
  frame_counts : String → ℕ

/-- Pointwise update of a dictionary-as-function. -/
def updateD {α : Type} (d : String → α) (k : String) (v : α) : String → α :=
  fun q => if q = k then v else d q

/-- `MotionDetector.__init__`: empty dictionaries. -/
def MotionDetector.init (cfg : MotionConfig) : MotionDetector :=
  { config := cfg, bg_subtractors := fun _ => none, last_motion_times := fun _ => 0,
    motion_events := fun _ => [], frame_counts := fun _ => 0 }

/-- `MotionDetector._get_or_create_bg_subtractor` (lines 73-86).  Note that on
creation it also resets the camera's last-motion time, event list and frame
counter. -/
def get_or_create_bg_subtractor (det : MotionDetector) (camera_id : String) :
    BGSubtractor × MotionDetector :=
  match det.bg_subtractors camera_id with
  | some bg => (bg, det)
  | none =>
      let bg := newBGSubtractor det.config
      (bg,
        { det with
          bg_subtractors := updateD det.bg_subtractors camera_id (some bg),
          last_motion_times := updateD det.last_motion_times camera_id 0,
          motion_events := updateD det.motion_events camera_id [],
          frame_counts := updateD det.frame_counts camera_id 0 })

/-- `MotionDetector._is_in_cooldown` (lines 196-199). -/
def is_in_cooldown (det : MotionDetector) (camera_id : String) (current_time : ℚ) : Bool :=
  decide (current_time - det.last_motion_times camera_id < det.config.cooldown)

/-- The `MotionEvent` built inside `_record_motion_event` (`frame_shape` is
passed as `(height, width)` and stored as `(width, height)`). -/
def mkMotionEvent (camera_id : String) (timestamp : ℚ) (info : ContourInfo)
    (frame_shape : ℕ × ℕ) : MotionEvent :=
  { camera_id := camera_id, timestamp := timestamp, contour_count := info.count,
    largest_contour_area := info.largest_area,
    frame_shape := (frame_shape.2, frame_shape.1) }

/-- `MotionDetector._record_motion_event` (lines 201-217): append the event,
reset the cooldown clock to `timestamp`, and truncate the log to its last 100
entries (Python `events[-100:]`) when it exceeds 100. -/
def record_motion_event (det : MotionDetector) (camera_id : String) (timestamp : ℚ)
    (info : ContourInfo) (frame_shape : ℕ × ℕ) : MotionDetector :=
  let events := det.motion_events camera_id ++ [mkMotionEvent camera_id timestamp info frame_shape]
  let events := if 100 < events.length then events.drop (events.length - 100) else events
  { det with
    motion_events := updateD det.motion_events camera_id events,
    last_motion_times := updateD det.last_motion_times camera_id timestamp }

/-- `MotionDetector.process_frame` (lines 88-134), with the wall clock
`time.time()` made an explicit argument and the frame an `Option` (`none` is
Python `None`).  The exception handler (lines 132-134) is unreachable in the
model since every embedded operation is total. -/
def process_frame (det : MotionDetector) (frame : Option Frame) (camera_id : String)
    (current_time : ℚ) : Bool × MotionDetector :=
  match frame with
  | none => (false, det)
  | some f =>
      let det :=
        { det with
          frame_counts := updateD det.frame_counts camera_id (det.frame_counts camera_id + 1) }
      if is_in_cooldown det camera_id current_time then
        (false, det)
      else
        let created := get_or_create_bg_subtractor det camera_id
        let det := created.2
        let appliedPair := BGSubtractor.apply created.1 f
        let det :=
          { det with
            bg_subtractors := updateD det.bg_subtractors camera_id (some appliedPair.1) }
        let res := analyze_contours det.config appliedPair.2
        if res.1 then
          (true, record_motion_event det camera_id current_time res.2 (f.height, f.width))
        else
          (false, det)

/-- `MotionDetector.update_config` (lines 295-304): replace the configuration
and clear the background-subtractor dictionary; nothing else is touched. -/
def update_config (det : MotionDetector) (new_config : MotionConfig) : MotionDetector :=
  { det with config := new_config, bg_subtractors := fun _ => none }

/-- A driving loop: a sequence of `process_frame` calls
(frame, camera id, timestamp). -/
def runFrames (det : MotionDetector) : List (Option Frame × String × ℚ) → MotionDetector
  | [] => det
  | (f, c, t) :: rest => runFrames (process_frame det f c t).2 rest

/-! ## Capture backend (src/libcamera_still_bridge.py) -/

/-- `LibCameraStillCapture` object state.  The camera image is abstracted to a
natural number (an opaque pixel buffer); `frame_count` counts the frames the
capture loop has produced into `current_frame`. -/
structure LibCap where
  camera_id : ℕ
  running : Bool
  current_frame : Option ℕ
  frame_count : ℕ
deriving DecidableEq

/-- `LibCameraStillCapture.__init__` (lines 25-44). -/
def LibCap.new (camera_id : ℕ) : LibCap :=
  { camera_id := camera_id, running := false, current_frame := none, frame_count := 0 }

/-- `LibCameraStillCapture.start` (lines 46-85): `testOk` stubs whether the
one-shot `libcamera-still` test capture succeeds.  On success the capture is
marked running and the background capture thread is spawned — no frame has
been produced yet when `start` returns. -/
def LibCap.start (cap : LibCap) (testOk : Bool) : Bool × LibCap :=
  if testOk then (true, { cap with running := true }) else (false, cap)

/-- One successful iteration of `LibCameraStillCapture._capture_loop`
(lines 107-118): stores the new frame and bumps the frame counter. -/
def LibCap.produceFrame (cap : LibCap) (img : ℕ) : LibCap :=
  { cap with current_frame := some img, frame_count := cap.frame_count + 1 }

/-- `LibCameraStillCapture.read` (lines 136-147). -/
def LibCap.read (cap : LibCap) : Bool × Option ℕ :=
  match cap.current_frame with
  | some f => (true, some f)
  | none => (false, none)

/-- `LibCameraStillCapture.isOpened` (lines 149-151). -/
def LibCap.isOpened (cap : LibCap) : Bool := cap.running

/-- `LibCameraStillCapture.release` (lines 153-169). -/
def LibCap.release (cap : LibCap) : LibCap := { cap with running := false }

/-! ## Camera manager (src/camera_manager.py) -/

/-- The `CameraManager` capture attributes (`_critter_capture`,
`_nut_capture`; `None` ≘ `none`), instrumented with ghost counters recording
how many times `_release_camera` was invoked on each camera's backend. -/
structure CameraManager where
  critter_capture : Option LibCap
  nut_capture : Option LibCap
  critter_release_calls : ℕ
  nut_release_calls : ℕ
deriving DecidableEq

/-- `CameraManager.release` (lines 307-327): for each slot that still holds a
capture object, call `_release_camera` on it and then clear the slot (the
`finally` block sets the attribute to `None` even if release raised). -/
def CameraManager.release (m : CameraManager) : CameraManager :=
  let m1 :=
    match m.critter_capture with
    | some _ =>
        { m with critter_capture := none,
                 critter_release_calls := m.critter_release_calls + 1 }
    | none => m
  match m1.nut_capture with
  | some _ =>
      { m1 with nut_capture := none, nut_release_calls := m1.nut_release_calls + 1 }
  | none => m1

/-- `CameraManager.cleanup` (lines 476-479): delegates to `release`. -/
def CameraManager.cleanup (m : CameraManager) : CameraManager := m.release

/-- `CameraManager.is_camera_available` (lines 362-404) on the
libcamera-still backend.  `LibCameraStillCapture` has no `started` and no
`is_running` attribute, so the attribute probing falls through to the
`isOpened` branch. -/
def CameraManager.is_camera_available (m : CameraManager) (camera_name : String) : Bool :=
  if camera_name = "critter_cam" then
    match m.critter_capture with
    | none => false
    | some cap => cap.isOpened
  else if camera_name = "nut_cam" then
    match m.nut_capture with
    | none => false
    | some cap => cap.isOpened
  else false

/-- `CameraManager._read_camera_frame` (lines 269-305) on the
libcamera-still backend: the object has no `capture_array` and no `capture`
attribute, so the `read`/`isOpened` branch is taken. -/
def read_camera_frame (cap : LibCap) : Option ℕ :=
  if cap.isOpened then
    match cap.read with
    | (true, some f) => some f
    | _ => none
  else none

/-- Abstract model of `cv2.imencode('.jpg', img, [IMWRITE_JPEG_QUALITY, q])`:
always succeeds, and the produced byte buffer is determined by the image and
the quality, represented as the pair `(img, q)`. -/
def imencodeJpeg (img : ℕ) (quality : ℕ) : Bool × (ℕ × ℕ) := (true, (img, quality))

/-- Abstract model of `cv2.cvtColor(frame, cv2.COLOR_BGR2RGB)`: a channel
reordering of the same pixel buffer. -/
def cvtColorBGR2RGB (img : ℕ) : ℕ := img

/-- `CameraManager.get_latest_frame` (lines 426-474): dispatch on the camera
name, read the latest frame, convert to RGB and JPEG-encode it at the
hard-coded quality 85. -/
def CameraManager.get_latest_frame (m : CameraManager) (camera_name : String) :
    Option (ℕ × ℕ) :=
  let capOpt : Option LibCap :=
    if camera_name = "critter_cam" then m.critter_capture
    else if camera_name = "nut_cam" then m.nut_capture
    else none
  match capOpt with
  | none => none
  | some cap =>
      match read_camera_frame cap with
      | none => none
      | some frame =>
          let frame_rgb := cvtColorBGR2RGB frame
          let res := imencodeJpeg frame_rgb 85
          if res.1 then some res.2 else none

/-- Spec-side model of `latest_frame_encoded(camera_id, quality)` (spec 4.4):
a compressed encoding of the latest frame at the caller-supplied quality;
`none` before the first frame arrives or once the capture is closed, or for
an unknown camera name. -/
def latest_frame_encoded (m : CameraManager) (camera_name : String) (quality : ℕ) :
    Option (ℕ × ℕ) :=
  let capOpt : Option LibCap :=
    if camera_name = "critter_cam" then m.critter_capture
    else if camera_name = "nut_cam" then m.nut_capture
    else none
  match capOpt with
  | none => none
  | some cap =>
      if cap.running then cap.current_frame.map (fun f => (f, quality)) else none

/-- Result of `CameraManager.__init__` in the model (success or the message
of the `RuntimeError` it raises). -/
inductive InitResult where
  | ok
  | error (msg : String)
deriving DecidableEq

/-- Trace of one run of `CameraManager._initialize_opencv` (lines 196-230)
over a stubbed `cv2.VideoCapture` backend.  `critter_isOpened` and
`nut_isOpened` stub the `isOpened()` probe of the two constructed captures
(`cv2.VideoCapture(id)` itself always constructs); `*_opened` records whether
the device was successfully claimed, and `*_released` counts the release
calls performed on each backend before the function returns. -/
structure InitTrace where
  result : InitResult
  critter_opened : Bool
  nut_opened : Bool
  critter_released : ℕ
  nut_released : ℕ
deriving DecidableEq

/-- `CameraManager._initialize_opencv` (lines 196-230): open CritterCam and
raise on failure; then open NutCam and raise on failure.  No path releases a
previously opened capture. -/
def initialize_opencv (critter_isOpened nut_isOpened : Bool) : InitTrace :=
  if !critter_isOpened then
    { result := .error "Cannot initialize CritterCam", critter_opened := false,
      nut_opened := false, critter_released := 0, nut_released := 0 }
  else if !nut_isOpened then
    { result := .error "Cannot initialize NutCam", critter_opened := true,
      nut_opened := false, critter_released := 0, nut_released := 0 }
  else
    { result := .ok, critter_opened := true, nut_opened := true,
      critter_released := 0, nut_released := 0 }

/-! ## Concrete fixtures used by witnesses and counterexamples -/

/-- A detector whose camera "cam" already has a background model (fed one
frame) and whose last motion for "cam" was recorded at time 100. -/
def detC5 : MotionDetector :=
  { config := defaultMotionConfig,
    bg_subtractors := updateD (fun _ => none) "cam"
      (some { newBGSubtractor defaultMotionConfig with applied := [Frame.mk 480 640 [600]] }),
    last_motion_times := updateD (fun _ => 0) "cam" 100,
    motion_events := fun _ => [],
    frame_counts := fun _ => 1 }

/-- A sample motion event. -/
def eventDemo : MotionEvent :=
  { camera_id := "cam", timestamp := 1, contour_count := 1,
    largest_contour_area := 600, frame_shape := (640, 480) }

/-- A sample contour-statistics record. -/
def infoDemo : ContourInfo :=
  { count := 1, largest_area := 600, total_area := 600, average_area := 600 }

/-- A detector whose event log for every camera is exactly at the 100-event cap. -/
def detFull : MotionDetector :=
  { config := defaultMotionConfig, bg_subtractors := fun _ => none,
    last_motion_times := fun _ => 0,
    motion_events := fun _ => List.replicate 100 eventDemo,
    frame_counts := fun _ => 0 }

/-- A detector whose last motion for "cam" was at time 100 (cooldown 2.0). -/
def detC10 : MotionDetector :=
  { config := defaultMotionConfig,
    bg_subtractors := fun _ => none,
    last_motion_times := updateD (fun _ => 0) "cam" 100,
    motion_events := fun _ => [], frame_counts := fun _ => 0 }

/-- A new configuration with a shorter cooldown than the default. -/
def cfgC10 : MotionConfig := { defaultMotionConfig with cooldown := 1/2 }

/-- A new configuration that changes the threshold but keeps the cooldown. -/
def cfgSameCooldown : MotionConfig := { defaultMotionConfig with threshold := 300 }

/-- A capture object directly after a successful `start()`: running, but no
frame produced yet. -/
def capC6 : LibCap := ((LibCap.new 0).start true).2

/-- A manager holding `capC6` as its critter camera. -/
def mgrC6 : CameraManager :=
  { critter_capture := some capC6, nut_capture := none,
    critter_release_calls := 0, nut_release_calls := 0 }

/-- A manager whose critter camera is running and has produced frame 7. -/
def mgrC7 : CameraManager :=
  { critter_capture :=
      some { camera_id := 0, running := true, current_frame := some 7, frame_count := 1 },
    nut_capture := none, critter_release_calls := 0, nut_release_calls := 0 }

/-- A freshly initialized manager with two started captures. -/
def mgrDemo : CameraManager :=
  { critter_capture := some ((LibCap.new 0).start true).2,
    nut_capture := some ((LibCap.new 1).start true).2,
    critter_release_calls := 0, nut_release_calls := 0 }

/-! ## Helper lemmas about the motion detector -/

theorem updateD_self {α : Type} (d : String → α) (k : String) (v : α) :
    updateD d k v k = v := by simp [updateD]

theorem updateD_other {α : Type} (d : String → α) (k q : String) (v : α) (h : q ≠ k) :
    updateD d k v q = d q := by simp [updateD, h]

theorem process_frame_none (det : MotionDetector) (c : String) (t : ℚ) :
    process_frame det none c t = (false, det) := rfl

/-- Path equation: a call inside the cooldown window only bumps the frame
counter. -/
theorem process_frame_cooldown_eq (det : MotionDetector) (g : Frame) (c : String) (t : ℚ)
    (hc : is_in_cooldown det c t = true) :
    process_frame det (some g) c t =
      (false,
        { det with frame_counts := updateD det.frame_counts c (det.frame_counts c + 1) }) := by
  have hc' : is_in_cooldown
      { det with frame_counts := updateD det.frame_counts c (det.frame_counts c + 1) } c t
      = true := hc
  simp only [process_frame]
  rw [hc']
  simp

/-- Path equation: cooldown clear, background model for the camera already
present. -/
theorem process_frame_active_existing (det : MotionDetector) (g : Frame) (c : String) (t : ℚ)
    (bg : BGSubtractor)
    (hc : is_in_cooldown det c t = false)
    (hbg : det.bg_subtractors c = some bg) :
    process_frame det (some g) c t =
      (if (analyze_contours det.config g.contourAreas).1 then
        (true,
          record_motion_event
            { det with
              frame_counts := updateD det.frame_counts c (det.frame_counts c + 1),
              bg_subtractors := updateD det.bg_subtractors c (some (bg.apply g).1) }
            c t (analyze_contours det.config g.contourAreas).2 (g.height, g.width))
      else
        (false,
          { det with
            frame_counts := updateD det.frame_counts c (det.frame_counts c + 1),
            bg_subtractors := updateD det.bg_subtractors c (some (bg.apply g).1) })) := by
  have hc' : is_in_cooldown
      { det with frame_counts := updateD det.frame_counts c (det.frame_counts c + 1) } c t
      = false := hc
  simp only [process_frame, get_or_create_bg_subtractor]
  rw [hc']
  simp only [Bool.false_eq_true, if_false, hbg]
  rfl

/-- Path equation: cooldown clear, no background model yet — the lazy creation
also resets the camera's last-motion time, event log and frame counter. -/
theorem process_frame_active_new (det : MotionDetector) (g : Frame) (c : String) (t : ℚ)
    (hc : is_in_cooldown det c t = false)
    (hbg : det.bg_subtractors c = none) :
    process_frame det (some g) c t =
      (if (analyze_contours det.config g.contourAreas).1 then
        (true,
          record_motion_event
            { det with
              frame_counts := updateD (updateD det.frame_counts c (det.frame_counts c + 1)) c 0,
              last_motion_times := updateD det.last_motion_times c 0,
              motion_events := updateD det.motion_events c [],
              bg_subtractors :=
                updateD (updateD det.bg_subtractors c (some (newBGSubtractor det.config))) c
                  (some ((newBGSubtractor det.config).apply g).1) }
            c t (analyze_contours det.config g.contourAreas).2 (g.height, g.width))
      else
        (false,
          { det with
            frame_counts := updateD (updateD det.frame_counts c (det.frame_counts c + 1)) c 0,
            last_motion_times := updateD det.last_motion_times c 0,
            motion_events := updateD det.motion_events c [],
            bg_subtractors :=
              updateD (updateD det.bg_subtractors c (some (newBGSubtractor det.config))) c
                (some ((newBGSubtractor det.config).apply g).1) })) := by
  have hc' : is_in_cooldown
      { det with frame_counts := updateD det.frame_counts c (det.frame_counts c + 1) } c t
      = false := hc
  simp only [process_frame, get_or_create_bg_subtractor]
  rw [hc']
  simp only [Bool.false_eq_true, if_false, hbg]
  rfl

theorem record_motion_event_last (det : MotionDetector) (c : String) (t : ℚ)
    (info : ContourInfo) (sh : ℕ × ℕ) :
    (record_motion_event det c t info sh).last_motion_times c = t := by
  simp [record_motion_event, updateD]

theorem process_frame_config (det : MotionDetector) (f : Option Frame) (c : String) (t : ℚ) :
    (process_frame det f c t).2.config = det.config := by
  cases f with
  | none => rfl
  | some g =>
    by_cases hc : is_in_cooldown det c t
    · rw [process_frame_cooldown_eq det g c t hc]
    · rcases hbg : det.bg_subtractors c with _ | bg
      · rw [process_frame_active_new det g c t (by simpa using hc) hbg]
        split <;> rfl
      · rw [process_frame_active_existing det g c t bg (by simpa using hc) hbg]
        split <;> rfl

/-- If a call reports motion, it has reset the camera's cooldown clock to the
call's timestamp. -/
theorem process_frame_true_result (det : MotionDetector) (g : Frame) (c : String) (t : ℚ)
    (h : (process_frame det (some g) c t).1 = true) :
    (process_frame det (some g) c t).2.last_motion_times c = t := by
  by_cases hc : is_in_cooldown det c t
  · rw [process_frame_cooldown_eq det g c t hc] at h
    simp at h
  · rcases hbg : det.bg_subtractors c with _ | bg
    · rw [process_frame_active_new det g c t (by simpa using hc) hbg] at h ⊢
      by_cases hm : (analyze_contours det.config g.contourAreas).1 = true
      · rw [if_pos hm]
        exact record_motion_event_last _ _ _ _ _
      · rw [if_neg hm] at h
        simp at h
    · rw [process_frame_active_existing det g c t bg (by simpa using hc) hbg] at h ⊢
      by_cases hm : (analyze_contours det.config g.contourAreas).1 = true
      · rw [if_pos hm]
        exact record_motion_event_last _ _ _ _ _
      · rw [if_neg hm] at h
        simp at h

theorem process_frame_in_cooldown_false (det : MotionDetector) (g : Frame) (c : String) (t : ℚ)
    (hc : is_in_cooldown det c t = true) :
    (process_frame det (some g) c t).1 = false := by
  rw [process_frame_cooldown_eq det g c t hc]

/-- Outside of cooldown, the call's boolean result is exactly the contour
analysis of the frame's foreground regions. -/
theorem process_frame_active_result (det : MotionDetector) (g : Frame) (c : String) (t : ℚ)
    (hc : is_in_cooldown det c t = false) :
    (process_frame det (some g) c t).1 = (analyze_contours det.config g.contourAreas).1 := by
  rcases hbg : det.bg_subtractors c with _ | bg
  · rw [process_frame_active_new det g c t hc hbg]
    by_cases hm : (analyze_contours det.config g.contourAreas).1 = true
    · rw [if_pos hm, hm]
    · rw [if_neg hm]
      simp only [Bool.not_eq_true] at hm
      exact hm.symm
  · rw [process_frame_active_existing det g c t bg hc hbg]
    by_cases hm : (analyze_contours det.config g.contourAreas).1 = true
    · rw [if_pos hm, hm]
    · rw [if_neg hm]
      simp only [Bool.not_eq_true] at hm
      exact hm.symm

/-- Contour analysis of a mask with a single region. -/
theorem analyze_contours_singleton (cfg : MotionConfig) (a : ℚ)
    (hmax : 0 < cfg.max_contours_to_check)
    (hmin : (cfg.min_contour_area : ℚ) ≤ a) :
    (analyze_contours cfg [a]).1 = decide ((cfg.threshold : ℚ) ≤ a) := by
  obtain ⟨k, hk⟩ := Nat.exists_eq_add_of_lt hmax
  unfold analyze_contours
  rw [if_neg (by simp)]
  rw [hk]
  simp only [List.take_succ_cons, List.take_nil, List.filter_cons, List.filter_nil,
    decide_eq_true hmin, if_true]
  rw [if_neg (by simp)]
  rfl

theorem record_motion_event_counts (det : MotionDetector) (c : String) (t : ℚ)
    (info : ContourInfo) (sh : ℕ × ℕ) :
    (record_motion_event det c t info sh).frame_counts = det.frame_counts := rfl

/-- After recording, the camera's log never exceeds 100 events. -/
theorem record_motion_event_events_self (det : MotionDetector) (c : String) (t : ℚ)
    (info : ContourInfo) (sh : ℕ × ℕ) :
    ((record_motion_event det c t info sh).motion_events c).length ≤ 100 := by
  simp only [record_motion_event, updateD_self]
  split
  · next h =>
      simp only [List.length_drop]
      omega
  · next h => omega

theorem record_motion_event_events_other (det : MotionDetector) (c q : String) (t : ℚ)
    (info : ContourInfo) (sh : ℕ × ℕ) (hq : q ≠ c) :
    (record_motion_event det c t info sh).motion_events q = det.motion_events q := by
  simp only [record_motion_event, updateD_other _ _ _ _ hq]

/-- One `process_frame` call preserves the 100-event bound on each camera's
log. -/
theorem process_frame_events_le (det : MotionDetector) (f : Option Frame) (c : String)
    (t : ℚ) (q : String) (h : (det.motion_events q).length ≤ 100) :
    ((process_frame det f c t).2.motion_events q).length ≤ 100 := by
  cases f with
  | none => exact h
  | some g =>
    by_cases hc : is_in_cooldown det c t
    · rw [process_frame_cooldown_eq det g c t hc]
      exact h
    · by_cases hq : q = c
      · subst hq
        rcases hbg : det.bg_subtractors q with _ | bg
        · rw [process_frame_active_new det g q t (by simpa using hc) hbg]
          by_cases hm : (analyze_contours det.config g.contourAreas).1 = true
          · rw [if_pos hm]
            exact record_motion_event_events_self _ _ _ _ _
          · rw [if_neg hm]
            simp [updateD_self]
        · rw [process_frame_active_existing det g q t bg (by simpa using hc) hbg]
          by_cases hm : (analyze_contours det.config g.contourAreas).1 = true
          · rw [if_pos hm]
            exact record_motion_event_events_self _ _ _ _ _
          · rw [if_neg hm]
            exact h
      · rcases hbg : det.bg_subtractors c with _ | bg
        · rw [process_frame_active_new det g c t (by simpa using hc) hbg]
          by_cases hm : (analyze_contours det.config g.contourAreas).1 = true
          · rw [if_pos hm]
            rw [record_motion_event_events_other _ _ _ _ _ _ hq]
            simpa [updateD_other _ _ _ _ hq] using h
          · rw [if_neg hm]
            simpa [updateD_other _ _ _ _ hq] using h
        · rw [process_frame_active_existing det g c t bg (by simpa using hc) hbg]
          by_cases hm : (analyze_contours det.config g.contourAreas).1 = true
          · rw [if_pos hm]
            rw [record_motion_event_events_other _ _ _ _ _ _ hq]
            exact h
          · rw [if_neg hm]
            exact h

theorem runFrames_events_le (calls : List (Option Frame × String × ℚ)) :
    ∀ det : MotionDetector, (∀ q, (det.motion_events q).length ≤ 100) →
      ∀ q, ((runFrames det calls).motion_events q).length ≤ 100 := by
  induction calls with
  | nil => intro det h q; exact h q
  | cons call rest ih =>
      intro det h q
      obtain ⟨f, c, t⟩ := call
      exact ih _ (fun p => process_frame_events_le det f c t p (h p)) q

/-- `detC5` is inside its cooldown window at time 101. -/
theorem detC5_in_cooldown : is_in_cooldown detC5 "cam" 101 = true := by
  norm_num [is_in_cooldown, detC5, updateD, defaultMotionConfig]

/-- The demo frame (single region of area 600) qualifies as motion under the
default configuration. -/
theorem analyze_demo_true :
    (analyze_contours (MotionDetector.init defaultMotionConfig).config
      (Frame.mk 480 640 [600]).contourAreas).1 = true := by
  rw [show (Frame.mk 480 640 [600]).contourAreas = [(600 : ℚ)] from rfl,
    analyze_contours_singleton _ _ (by norm_num [MotionDetector.init, defaultMotionConfig])
      (by norm_num [MotionDetector.init, defaultMotionConfig])]
  norm_num [MotionDetector.init, defaultMotionConfig]

/-! ## Helper lemmas about the camera manager -/

theorem release_calls_bound (m : CameraManager) :
    m.release.critter_release_calls ≤ m.critter_release_calls + 1 ∧
    m.release.nut_release_calls ≤ m.nut_release_calls + 1 := by
  unfold CameraManager.release
  rcases hc : m.critter_capture with _ | cap <;> rcases hn : m.nut_capture with _ | cap2 <;>
    simp [hc, hn]

theorem release_release (m : CameraManager) : m.release.release = m.release := by
  unfold CameraManager.release
  rcases hc : m.critter_capture with _ | cap <;> rcases hn : m.nut_capture with _ | cap2 <;>
    simp [hc, hn]

theorem release_iterate (m : CameraManager) (n : ℕ) (hn : 1 ≤ n) :
    CameraManager.release^[n] m = m.release := by
  induction n with
  | zero => omega
  | succ k ih =>
      rcases Nat.eq_or_lt_of_le hn with h1 | h1
      · rw [← h1]
        rfl
      · rw [Function.iterate_succ_apply', ih (by omega), release_release]

/-! ## Claim theorems -/

/-- Claim C1: for a fixed camera id, two `process_frame` calls whose frames
each carry a motion-qualifying foreground region, made less than the
configured cooldown apart, yield at most one `true`; separated by more than
the cooldown, both calls may yield `true`. -/
theorem cooldown_at_most_one_true
    (det : MotionDetector) (camera_id : String) (f1 f2 : Frame) (t1 t2 : ℚ)
    (hq1 : (analyze_contours det.config f1.contourAreas).1 = true)
    (hq2 : (analyze_contours det.config f2.contourAreas).1 = true)
    (hle : t1 ≤ t2)
    (hlt : t2 - t1 < det.config.cooldown) :
    (¬((process_frame det (some f1) camera_id t1).1 = true ∧
       (process_frame (process_frame det (some f1) camera_id t1).2
          (some f2) camera_id t2).1 = true)) ∧
    ∃ (d : MotionDetector) (c : String) (g : Frame) (u1 u2 : ℚ),
      d.config.cooldown < u2 - u1 ∧
      (analyze_contours d.config g.contourAreas).1 = true ∧
      (process_frame d (some g) c u1).1 = true ∧
      (process_frame (process_frame d (some g) c u1).2 (some g) c u2).1 = true := by
  constructor
  · rintro ⟨h1, h2⟩
    have hlast := process_frame_true_result det f1 camera_id t1 h1
    have hcfg := process_frame_config det (some f1) camera_id t1
    have hcool : is_in_cooldown (process_frame det (some f1) camera_id t1).2 camera_id t2
        = true := by
      unfold is_in_cooldown
      rw [hlast, hcfg]
      exact decide_eq_true hlt
    have hfalse := process_frame_in_cooldown_false
      (process_frame det (some f1) camera_id t1).2 f2 camera_id t2 hcool
    rw [hfalse] at h2
    exact Bool.false_ne_true h2
  · refine ⟨MotionDetector.init defaultMotionConfig, "cam", Frame.mk 480 640 [600],
      100, 103, ?_, ?_, ?_, ?_⟩
    · norm_num [MotionDetector.init, defaultMotionConfig]
    · exact analyze_demo_true
    · have hc : is_in_cooldown (MotionDetector.init defaultMotionConfig) "cam" 100 = false := by
        norm_num [is_in_cooldown, MotionDetector.init, defaultMotionConfig]
      rw [process_frame_active_result _ _ _ _ hc]
      exact analyze_demo_true
    · have hc : is_in_cooldown (MotionDetector.init defaultMotionConfig) "cam" 100 = false := by
        norm_num [is_in_cooldown, MotionDetector.init, defaultMotionConfig]
      have h1 : (process_frame (MotionDetector.init defaultMotionConfig)
          (some (Frame.mk 480 640 [600])) "cam" 100).1 = true := by
        rw [process_frame_active_result _ _ _ _ hc]
        exact analyze_demo_true
      have hlast := process_frame_true_result _ _ _ _ h1
      have hcfg := process_frame_config (MotionDetector.init defaultMotionConfig)
        (some (Frame.mk 480 640 [600])) "cam" 100
      have hc2 : is_in_cooldown (process_frame (MotionDetector.init defaultMotionConfig)
          (some (Frame.mk 480 640 [600])) "cam" 100).2 "cam" 103 = false := by
        unfold is_in_cooldown
        rw [hlast, hcfg]
        norm_num [MotionDetector.init, defaultMotionConfig]
      rw [process_frame_active_result _ _ _ _ hc2, hcfg]
      exact analyze_demo_true

/-- Witness for C1 at a concrete two-call run 1 second apart (cooldown 2.0). -/
theorem cooldown_at_most_one_true_witness :
    ((analyze_contours (MotionDetector.init defaultMotionConfig).config
        (Frame.mk 480 640 [600]).contourAreas).1 = true) ∧
    ((100 : ℚ) ≤ 101) ∧
    ((101 : ℚ) - 100 < (MotionDetector.init defaultMotionConfig).config.cooldown) ∧
    ((¬((process_frame (MotionDetector.init defaultMotionConfig)
          (some (Frame.mk 480 640 [600])) "cam" 100).1 = true ∧
        (process_frame
          (process_frame (MotionDetector.init defaultMotionConfig)
            (some (Frame.mk 480 640 [600])) "cam" 100).2
          (some (Frame.mk 480 640 [600])) "cam" 101).1 = true)) ∧
     ∃ (d : MotionDetector) (c : String) (g : Frame) (u1 u2 : ℚ),
       d.config.cooldown < u2 - u1 ∧
       (analyze_contours d.config g.contourAreas).1 = true ∧
       (process_frame d (some g) c u1).1 = true ∧
       (process_frame (process_frame d (some g) c u1).2 (some g) c u2).1 = true) :=
  ⟨analyze_demo_true, by norm_num,
   by norm_num [MotionDetector.init, defaultMotionConfig],
   cooldown_at_most_one_true (MotionDetector.init defaultMotionConfig) "cam"
     (Frame.mk 480 640 [600]) (Frame.mk 480 640 [600]) 100 101
     analyze_demo_true analyze_demo_true (by norm_num)
     (by norm_num [MotionDetector.init, defaultMotionConfig])⟩

/-- Claim C2 (amended): when the first camera opens and the second fails to
open, `_initialize_opencv` reports the error synchronously (the constructor
raises), but the opened first camera's backend is NOT released before the
error propagates — no initialization path performs any release call. -/
theorem init_second_open_failure_no_release :
    (initialize_opencv true false).result = InitResult.error "Cannot initialize NutCam" ∧
    (initialize_opencv true false).critter_opened = true ∧
    (∀ a b : Bool, (initialize_opencv a b).critter_released = 0 ∧
                   (initialize_opencv a b).nut_released = 0) := by
  refine ⟨rfl, rfl, ?_⟩
  intro a b
  cases a <;> cases b <;> exact ⟨rfl, rfl⟩

/-- Counterexample to C2 as stated: in the partial-failure run the error is
reported but the opened CritterCam backend is never released (release count
stays 0, not ≥ 1). -/
theorem init_rollback_counterexample :
    (initialize_opencv true false).result ≠ InitResult.ok ∧
    (initialize_opencv true false).critter_opened = true ∧
    ¬(1 ≤ (initialize_opencv true false).critter_released) := by
  decide

/-- Claim C3: outside of cooldown, a frame whose only noise-filter-surviving
region has area exactly the configured threshold is classified as motion, and
one with area one unit below the threshold is not. -/
theorem area_threshold_boundary
    (det : MotionDetector) (camera_id : String) (t : ℚ) (fEq fLt : Frame)
    (hcool : is_in_cooldown det camera_id t = false)
    (hmax : 0 < det.config.max_contours_to_check)
    (hEq : fEq.contourAreas = [(det.config.threshold : ℚ)])
    (hLt : fLt.contourAreas = [(det.config.threshold : ℚ) - 1])
    (hminEq : (det.config.min_contour_area : ℚ) ≤ (det.config.threshold : ℚ))
    (hminLt : (det.config.min_contour_area : ℚ) ≤ (det.config.threshold : ℚ) - 1) :
    (process_frame det (some fEq) camera_id t).1 = true ∧
    (process_frame det (some fLt) camera_id t).1 = false := by
  constructor
  · rw [process_frame_active_result det fEq camera_id t hcool, hEq,
      analyze_contours_singleton _ _ hmax hminEq]
    simp
  · rw [process_frame_active_result det fLt camera_id t hcool, hLt,
      analyze_contours_singleton _ _ hmax hminLt]
    simp only [decide_eq_false_iff_not, not_le]
    exact sub_lt_self _ (by norm_num)

/-- Witness for C3 under the default configuration (threshold 500): area 500
is motion, area 499 is not. -/
theorem area_threshold_boundary_witness :
    (is_in_cooldown (MotionDetector.init defaultMotionConfig) "cam" 100 = false) ∧
    (0 < (MotionDetector.init defaultMotionConfig).config.max_contours_to_check) ∧
    ((Frame.mk 480 640 [500]).contourAreas
      = [((MotionDetector.init defaultMotionConfig).config.threshold : ℚ)]) ∧
    ((Frame.mk 480 640 [499]).contourAreas
      = [((MotionDetector.init defaultMotionConfig).config.threshold : ℚ) - 1]) ∧
    (((MotionDetector.init defaultMotionConfig).config.min_contour_area : ℚ)
      ≤ ((MotionDetector.init defaultMotionConfig).config.threshold : ℚ)) ∧
    (((MotionDetector.init defaultMotionConfig).config.min_contour_area : ℚ)
      ≤ ((MotionDetector.init defaultMotionConfig).config.threshold : ℚ) - 1) ∧
    ((process_frame (MotionDetector.init defaultMotionConfig)
        (some (Frame.mk 480 640 [500])) "cam" 100).1 = true ∧
     (process_frame (MotionDetector.init defaultMotionConfig)
        (some (Frame.mk 480 640 [499])) "cam" 100).1 = false) := by
  have hcool : is_in_cooldown (MotionDetector.init defaultMotionConfig) "cam" 100 = false := by
    norm_num [is_in_cooldown, MotionDetector.init, defaultMotionConfig]
  have hmax : 0 < (MotionDetector.init defaultMotionConfig).config.max_contours_to_check := by
    norm_num [MotionDetector.init, defaultMotionConfig]
  have hEq : (Frame.mk 480 640 [500]).contourAreas
      = [((MotionDetector.init defaultMotionConfig).config.threshold : ℚ)] := by
    norm_num [MotionDetector.init, defaultMotionConfig]
  have hLt : (Frame.mk 480 640 [499]).contourAreas
      = [((MotionDetector.init defaultMotionConfig).config.threshold : ℚ) - 1] := by
    norm_num [MotionDetector.init, defaultMotionConfig]
  have hminEq : ((MotionDetector.init defaultMotionConfig).config.min_contour_area : ℚ)
      ≤ ((MotionDetector.init defaultMotionConfig).config.threshold : ℚ) := by
    norm_num [MotionDetector.init, defaultMotionConfig]
  have hminLt : ((MotionDetector.init defaultMotionConfig).config.min_contour_area : ℚ)
      ≤ ((MotionDetector.init defaultMotionConfig).config.threshold : ℚ) - 1 := by
    norm_num [MotionDetector.init, defaultMotionConfig]
  exact ⟨hcool, hmax, hEq, hLt, hminEq, hminLt,
    area_threshold_boundary _ "cam" 100 _ _ hcool hmax hEq hLt hminEq hminLt⟩

/-- Claim C4 (amended): a `None` frame leaves every counter unchanged; a
non-`None` frame sets the camera's counter to previous+1 — except on the call
that lazily creates the camera's background subtractor (cooldown clear and no
subtractor present), where the creation re-initializes the counter so the call
ends with the counter at 0; other cameras' counters are never affected. -/
theorem frame_counter_update
    (det : MotionDetector) (f : Frame) (camera_id q : String) (t : ℚ)
    (hq : q ≠ camera_id) :
    ((process_frame det none camera_id t).2.frame_counts = det.frame_counts) ∧
    (is_in_cooldown det camera_id t = true →
      (process_frame det (some f) camera_id t).2.frame_counts camera_id
        = det.frame_counts camera_id + 1) ∧
    (is_in_cooldown det camera_id t = false →
      ∀ bg, det.bg_subtractors camera_id = some bg →
        (process_frame det (some f) camera_id t).2.frame_counts camera_id
          = det.frame_counts camera_id + 1) ∧
    (is_in_cooldown det camera_id t = false →
      det.bg_subtractors camera_id = none →
      (process_frame det (some f) camera_id t).2.frame_counts camera_id = 0) ∧
    ((process_frame det (some f) camera_id t).2.frame_counts q = det.frame_counts q) := by
  refine ⟨rfl, ?_, ?_, ?_, ?_⟩
  · intro hc
    rw [process_frame_cooldown_eq det f camera_id t hc]
    exact updateD_self _ _ _
  · intro hc bg hbg
    rw [process_frame_active_existing det f camera_id t bg hc hbg]
    by_cases hm : (analyze_contours det.config f.contourAreas).1 = true
    · rw [if_pos hm, record_motion_event_counts]
      exact updateD_self _ _ _
    · rw [if_neg hm]
      exact updateD_self _ _ _
  · intro hc hbg
    rw [process_frame_active_new det f camera_id t hc hbg]
    by_cases hm : (analyze_contours det.config f.contourAreas).1 = true
    · rw [if_pos hm, record_motion_event_counts]
      exact updateD_self _ _ _
    · rw [if_neg hm]
      exact updateD_self _ _ _
  · by_cases hc : is_in_cooldown det camera_id t
    · rw [process_frame_cooldown_eq det f camera_id t hc]
      exact updateD_other _ _ _ _ hq
    · rcases hbg : det.bg_subtractors camera_id with _ | bg
      · rw [process_frame_active_new det f camera_id t (by simpa using hc) hbg]
        by_cases hm : (analyze_contours det.config f.contourAreas).1 = true
        · rw [if_pos hm, record_motion_event_counts]
          simp only [updateD_other _ _ _ _ hq]
        · rw [if_neg hm]
          simp only [updateD_other _ _ _ _ hq]
      · rw [process_frame_active_existing det f camera_id t bg (by simpa using hc) hbg]
        by_cases hm : (analyze_contours det.config f.contourAreas).1 = true
        · rw [if_pos hm, record_motion_event_counts]
          exact updateD_other _ _ _ _ hq
        · rw [if_neg hm]
          exact updateD_other _ _ _ _ hq

/-- Witness for C4 on a fresh detector. -/
theorem frame_counter_update_witness :
    ("other" ≠ "cam") ∧
    (((process_frame (MotionDetector.init defaultMotionConfig) none "cam" 100).2.frame_counts
        = (MotionDetector.init defaultMotionConfig).frame_counts) ∧
     (is_in_cooldown (MotionDetector.init defaultMotionConfig) "cam" 100 = true →
       (process_frame (MotionDetector.init defaultMotionConfig)
          (some (Frame.mk 480 640 [600])) "cam" 100).2.frame_counts "cam"
         = (MotionDetector.init defaultMotionConfig).frame_counts "cam" + 1) ∧
     (is_in_cooldown (MotionDetector.init defaultMotionConfig) "cam" 100 = false →
       ∀ bg, (MotionDetector.init defaultMotionConfig).bg_subtractors "cam" = some bg →
         (process_frame (MotionDetector.init defaultMotionConfig)
            (some (Frame.mk 480 640 [600])) "cam" 100).2.frame_counts "cam"
           = (MotionDetector.init defaultMotionConfig).frame_counts "cam" + 1) ∧
     (is_in_cooldown (MotionDetector.init defaultMotionConfig) "cam" 100 = false →
       (MotionDetector.init defaultMotionConfig).bg_subtractors "cam" = none →
       (process_frame (MotionDetector.init defaultMotionConfig)
          (some (Frame.mk 480 640 [600])) "cam" 100).2.frame_counts "cam" = 0) ∧
     ((process_frame (MotionDetector.init defaultMotionConfig)
         (some (Frame.mk 480 640 [600])) "cam" 100).2.frame_counts "other"
        = (MotionDetector.init defaultMotionConfig).frame_counts "other")) :=
  ⟨by decide, frame_counter_update _ _ _ _ _ (by decide)⟩

/-- Counterexample to C4 as stated: a `process_frame` call with a `None` frame
does not increment the camera's processed-frame counter. -/
theorem frame_counter_none_counterexample :
    ¬((process_frame (MotionDetector.init defaultMotionConfig) none "cam" 100).2.frame_counts "cam"
       = (MotionDetector.init defaultMotionConfig).frame_counts "cam" + 1) := by
  decide

/-- Claim C5 (amended): inside the cooldown window, `process_frame` returns
`false` immediately and does NOT update the camera's background model —
cooldown suppresses the model update as well as event emission; only the
frame counter is bumped. -/
theorem cooldown_returns_false_skips_model
    (det : MotionDetector) (f : Frame) (camera_id : String) (t : ℚ)
    (hc : is_in_cooldown det camera_id t = true) :
    (process_frame det (some f) camera_id t).1 = false ∧
    (process_frame det (some f) camera_id t).2.bg_subtractors = det.bg_subtractors ∧
    (process_frame det (some f) camera_id t).2.motion_events = det.motion_events ∧
    (process_frame det (some f) camera_id t).2.last_motion_times = det.last_motion_times ∧
    (process_frame det (some f) camera_id t).2.frame_counts camera_id
      = det.frame_counts camera_id + 1 := by
  rw [process_frame_cooldown_eq det f camera_id t hc]
  exact ⟨rfl, rfl, rfl, rfl, updateD_self _ _ _⟩

/-- Witness for C5 on `detC5` at time 101 (last motion 100, cooldown 2). -/
theorem cooldown_returns_false_skips_model_witness :
    (is_in_cooldown detC5 "cam" 101 = true) ∧
    ((process_frame detC5 (some (Frame.mk 480 640 [700])) "cam" 101).1 = false ∧
     (process_frame detC5 (some (Frame.mk 480 640 [700])) "cam" 101).2.bg_subtractors
        = detC5.bg_subtractors ∧
     (process_frame detC5 (some (Frame.mk 480 640 [700])) "cam" 101).2.motion_events
        = detC5.motion_events ∧
     (process_frame detC5 (some (Frame.mk 480 640 [700])) "cam" 101).2.last_motion_times
        = detC5.last_motion_times ∧
     (process_frame detC5 (some (Frame.mk 480 640 [700])) "cam" 101).2.frame_counts "cam"
        = detC5.frame_counts "cam" + 1) :=
  ⟨detC5_in_cooldown,
   cooldown_returns_false_skips_model detC5 (Frame.mk 480 640 [700]) "cam" 101
     detC5_in_cooldown⟩

/-- Counterexample to C5 as stated: during cooldown the call returns `false`
but the background model is NOT fed the new frame (its applied-frame history
does not grow). -/
theorem cooldown_model_counterexample :
    ¬(((process_frame detC5 (some (Frame.mk 480 640 [700])) "cam" 101).1 = false) ∧
      (((process_frame detC5 (some (Frame.mk 480 640 [700])) "cam" 101).2.bg_subtractors
          "cam").map BGSubtractor.applied
        = some [Frame.mk 480 640 [600], Frame.mk 480 640 [700]])) := by
  rintro ⟨-, h2⟩
  rw [process_frame_cooldown_eq _ _ _ _ detC5_in_cooldown] at h2
  simp [detC5, updateD] at h2

/-- Claim C6 (amended): `is_camera_available` reports exactly the backend's
`isOpened`/running flag (for the libcamera-still backend: `start()` succeeded
and `release()` has not been called), irrespective of whether any frame has
been produced yet; unknown camera names and missing captures yield `false`.
Producing a frame does not change the flag, and `start` produces no frame. -/
theorem availability_is_running_flag (m : CameraManager) (name : String)
    (h1 : name ≠ "critter_cam") (h2 : name ≠ "nut_cam") :
    (m.is_camera_available "critter_cam"
      = (m.critter_capture.map LibCap.isOpened).getD false) ∧
    (m.is_camera_available "nut_cam"
      = (m.nut_capture.map LibCap.isOpened).getD false) ∧
    (m.is_camera_available name = false) ∧
    (∀ (cap : LibCap) (img : ℕ), (cap.produceFrame img).isOpened = cap.isOpened) ∧
    (∀ (cap : LibCap) (ok : Bool),
      ((cap.start ok).2.current_frame = cap.current_frame ∧
       (cap.start ok).2.frame_count = cap.frame_count)) := by
  refine ⟨?_, ?_, ?_, ?_, ?_⟩
  · unfold CameraManager.is_camera_available
    rcases hc : m.critter_capture with _ | cap <;> simp [hc]
  · unfold CameraManager.is_camera_available
    rcases hn : m.nut_capture with _ | cap <;> simp [hn]
  · unfold CameraManager.is_camera_available
    rw [if_neg h1, if_neg h2]
  · intro cap img
    rfl
  · intro cap ok
    unfold LibCap.start
    cases ok <;> exact ⟨rfl, rfl⟩

/-- Witness for C6 on `mgrC6`. -/
theorem availability_is_running_flag_witness :
    ("other" ≠ "critter_cam") ∧ ("other" ≠ "nut_cam") ∧
    ((mgrC6.is_camera_available "critter_cam"
        = (mgrC6.critter_capture.map LibCap.isOpened).getD false) ∧
     (mgrC6.is_camera_available "nut_cam"
        = (mgrC6.nut_capture.map LibCap.isOpened).getD false) ∧
     (mgrC6.is_camera_available "other" = false) ∧
     (∀ (cap : LibCap) (img : ℕ), (cap.produceFrame img).isOpened = cap.isOpened) ∧
     (∀ (cap : LibCap) (ok : Bool),
       ((cap.start ok).2.current_frame = cap.current_frame ∧
        (cap.start ok).2.frame_count = cap.frame_count))) :=
  ⟨by decide, by decide,
   availability_is_running_flag mgrC6 "other" (by decide) (by decide)⟩

/-- Counterexample to C6 as stated: right after a successful `start()`, before
any frame has been produced, `is_camera_available` already returns `true`,
not `false`. -/
theorem availability_before_first_frame_counterexample :
    ¬(mgrC6.is_camera_available "critter_cam" = false) ∧
    capC6.frame_count = 0 ∧ capC6.current_frame = none := by
  decide

/-- Claim C7 (amended): `get_latest_frame` takes no quality parameter; it
always encodes at the hard-coded JPEG quality 85, and agrees with the
spec-side `latest_frame_encoded` accessor exactly at quality 85; it returns
`none` for an unknown name, a missing capture, a stopped capture, or before
the first frame. -/
theorem latest_frame_fixed_quality :
    ∀ (m : CameraManager) (camera_name : String),
      m.get_latest_frame camera_name = latest_frame_encoded m camera_name 85 := by
  intro m name
  unfold CameraManager.get_latest_frame latest_frame_encoded
  by_cases h1 : name = "critter_cam"
  · rw [if_pos h1]
    rcases hc : m.critter_capture with _ | cap
    · rfl
    · unfold read_camera_frame LibCap.isOpened LibCap.read
      cases hr : cap.running <;> cases hf : cap.current_frame <;>
        simp [hr, hf, imencodeJpeg, cvtColorBGR2RGB]
  · rw [if_neg h1]
    by_cases h2 : name = "nut_cam"
    · rw [if_pos h2]
      rcases hn : m.nut_capture with _ | cap
      · rfl
      · unfold read_camera_frame LibCap.isOpened LibCap.read
        cases hr : cap.running <;> cases hf : cap.current_frame <;>
          simp [hr, hf, imencodeJpeg, cvtColorBGR2RGB]
    · rw [if_neg h2]

/-- Counterexample to C7 as stated: on `mgrC7` the code's accessor produces
the quality-85 encoding and cannot realize the spec accessor at a
caller-chosen quality of 40. -/
theorem latest_frame_quality_counterexample :
    mgrC7.get_latest_frame "critter_cam" = some (7, 85) ∧
    latest_frame_encoded mgrC7 "critter_cam" 40 = some (7, 40) ∧
    ¬(mgrC7.get_latest_frame "critter_cam" = latest_frame_encoded mgrC7 "critter_cam" 40) := by
  decide

/-- Claim C8: `release` (and `cleanup`, which delegates to it) is idempotent —
a second call changes nothing and raises nothing — and over any number of
shutdown calls each camera backend is released at most once. -/
theorem release_idempotent_once (m : CameraManager) (n : ℕ)
    (hc : m.critter_release_calls = 0) (hn : m.nut_release_calls = 0) :
    m.release.release = m.release ∧
    m.cleanup = m.release ∧
    (CameraManager.release^[n] m).critter_release_calls ≤ 1 ∧
    (CameraManager.release^[n] m).nut_release_calls ≤ 1 := by
  refine ⟨release_release m, rfl, ?_, ?_⟩ <;>
  · rcases Nat.eq_zero_or_pos n with h0 | h0
    · subst h0
      simp [hc, hn]
    · rw [release_iterate m n h0]
      have := release_calls_bound m
      omega

/-- Witness for C8 on a freshly initialized manager, released twice. -/
theorem release_idempotent_once_witness :
    (mgrDemo.critter_release_calls = 0) ∧ (mgrDemo.nut_release_calls = 0) ∧
    (mgrDemo.release.release = mgrDemo.release ∧
     mgrDemo.cleanup = mgrDemo.release ∧
     (CameraManager.release^[2] mgrDemo).critter_release_calls ≤ 1 ∧
     (CameraManager.release^[2] mgrDemo).nut_release_calls ≤ 1) :=
  ⟨rfl, rfl, release_idempotent_once mgrDemo 2 rfl rfl⟩

/-- Claim C9: after any sequence of `process_frame` calls from a fresh
detector, every camera's event log holds at most 100 events; below the cap a
new event is appended at the end (order of recording), and at the cap the
single oldest event is evicted so that exactly the 100 most recent remain. -/
theorem motion_event_log_capped :
    (∀ (cfg : MotionConfig) (calls : List (Option Frame × String × ℚ)) (c : String),
        ((runFrames (MotionDetector.init cfg) calls).motion_events c).length ≤ 100) ∧
    (∀ (det : MotionDetector) (c : String) (t : ℚ) (info : ContourInfo) (sh : ℕ × ℕ),
        (det.motion_events c).length < 100 →
        (record_motion_event det c t info sh).motion_events c
          = det.motion_events c ++ [mkMotionEvent c t info sh]) ∧
    (∀ (det : MotionDetector) (c : String) (t : ℚ) (info : ContourInfo) (sh : ℕ × ℕ),
        (det.motion_events c).length = 100 →
        (record_motion_event det c t info sh).motion_events c
          = (det.motion_events c).drop 1 ++ [mkMotionEvent c t info sh]) := by
  refine ⟨?_, ?_, ?_⟩
  · intro cfg calls c
    exact runFrames_events_le calls (MotionDetector.init cfg)
      (fun q => by simp [MotionDetector.init]) c
  · intro det c t info sh h
    simp only [record_motion_event, updateD_self]
    rw [if_neg]
    simp only [List.length_append, List.length_cons, List.length_nil]
    omega
  · intro det c t info sh h
    simp only [record_motion_event, updateD_self]
    rw [if_pos]
    · have hlen : (det.motion_events c ++ [mkMotionEvent c t info sh]).length = 101 := by
        simp [h]
      rw [hlen]
      rw [show (101 - 100 : ℕ) = 1 from rfl]
      rw [List.drop_append_of_le_length (by omega)]
    · simp [h]

/-- Witness for C9: recording below the cap appends; recording at the cap
drops the oldest event. -/
theorem motion_event_log_capped_witness :
    ((detFull.motion_events "cam").length = 100) ∧
    (((MotionDetector.init defaultMotionConfig).motion_events "cam").length < 100) ∧
    ((record_motion_event detFull "cam" 5 infoDemo (480, 640)).motion_events "cam"
      = (detFull.motion_events "cam").drop 1 ++ [mkMotionEvent "cam" 5 infoDemo (480, 640)]) ∧
    ((record_motion_event (MotionDetector.init defaultMotionConfig) "cam" 5 infoDemo
        (480, 640)).motion_events "cam"
      = (MotionDetector.init defaultMotionConfig).motion_events "cam"
          ++ [mkMotionEvent "cam" 5 infoDemo (480, 640)]) :=
  ⟨by simp [detFull], by simp [MotionDetector.init],
   motion_event_log_capped.2.2 detFull "cam" 5 infoDemo (480, 640) (by simp [detFull]),
   motion_event_log_capped.2.1 (MotionDetector.init defaultMotionConfig) "cam" 5 infoDemo
     (480, 640) (by simp [MotionDetector.init])⟩

/-- Claim C10 (amended): `update_config` replaces the configuration and drops
every camera's background model, leaving each camera's frame counter,
last-motion timestamp and event log unchanged; the derived in-cooldown state
is also unchanged provided the new configuration keeps the same cooldown
duration (it may flip otherwise, since the window is re-evaluated against the
new duration). -/
theorem update_config_effects
    (det : MotionDetector) (new_config : MotionConfig) (c : String) (t : ℚ)
    (hcd : new_config.cooldown = det.config.cooldown) :
    (update_config det new_config).config = new_config ∧
    (∀ q, (update_config det new_config).bg_subtractors q = none) ∧
    (update_config det new_config).frame_counts = det.frame_counts ∧
    (update_config det new_config).last_motion_times = det.last_motion_times ∧
    (update_config det new_config).motion_events = det.motion_events ∧
    is_in_cooldown (update_config det new_config) c t = is_in_cooldown det c t := by
  refine ⟨rfl, fun q => rfl, rfl, rfl, rfl, ?_⟩
  simp [is_in_cooldown, update_config, hcd]

/-- Witness for C10 with a new configuration keeping the cooldown duration. -/
theorem update_config_effects_witness :
    (cfgSameCooldown.cooldown = detC10.config.cooldown) ∧
    ((update_config detC10 cfgSameCooldown).config = cfgSameCooldown ∧
     (∀ q, (update_config detC10 cfgSameCooldown).bg_subtractors q = none) ∧
     (update_config detC10 cfgSameCooldown).frame_counts = detC10.frame_counts ∧
     (update_config detC10 cfgSameCooldown).last_motion_times = detC10.last_motion_times ∧
     (update_config detC10 cfgSameCooldown).motion_events = detC10.motion_events ∧
     is_in_cooldown (update_config detC10 cfgSameCooldown) "cam" 101
       = is_in_cooldown detC10 "cam" 101) :=
  ⟨rfl, update_config_effects detC10 cfgSameCooldown "cam" 101 rfl⟩

/-- Counterexample to C10 as stated: when `update_config` shortens the
cooldown duration, a camera that was in cooldown before the call is no longer
in cooldown after it — the cooldown state is not preserved. -/
theorem update_config_cooldown_counterexample :
    is_in_cooldown detC10 "cam" 101 = true ∧
    is_in_cooldown (update_config detC10 cfgC10) "cam" 101 = false := by
  constructor <;>
    norm_num [is_in_cooldown, update_config, detC10, cfgC10, updateD, defaultMotionConfig]

end NutflixLite
